import Mathlib

/-!
Verification of `src/weather.py` (ai-weather-plugin).

The Python module defines a `Weather` class with:
  * `fetch_weather(region_code)` — guarded HTTP GET with a try/except/finally
    block mutating the instance fields `_fetching`, `loading`, `fetch_error`,
    `data` (src lines 75-95);
  * `_clean_ai_response(ai_response)` — two `re.sub` calls stripping markdown
    code fences (src lines 97-103);
  * `process_ai_response` — a thin wrapper over the cleaner (lines 105-110);
  * `main()` — CLI argument validation and the fetch → AI → clean pipeline
    (lines 114-179).

Strings are embedded as `List Char`.  Machine-level I/O (the HTTP transport
and the AI backend) is passed in explicitly: the transport as an
`HttpResult` value describing what `requests.get` / `resp.json()` would do,
the AI backend as an opaque function argument, mirroring the spec's view of
them as external collaborators.
-/

/-- The backtick character (Char code 96). -/
def btick : Char := Char.ofNat 96

/-- A markdown fence: three backticks. -/
def fence : List Char := [btick, btick, btick]

/-- Whitespace test of Python `str.strip()` / `str.isspace()`.  Exhaustive
over all of Unicode (checked against CPython 3.11 for every code point):
U+0009-U+000D, U+001C-U+001F, space, U+0085 (NEL), U+00A0 (NBSP),
U+1680 (Ogham space), U+2000-U+200A (typographic spaces), U+2028, U+2029
(line/paragraph separator), U+202F, U+205F, U+3000 (ideographic space). -/
def pyIsSpace (c : Char) : Bool :=
  (Char.ofNat 9 ≤ c && c ≤ Char.ofNat 13) ||
  (Char.ofNat 28 ≤ c && c ≤ Char.ofNat 31) ||
  c = ' ' || c = Char.ofNat 133 || c = Char.ofNat 160 ||
  c = Char.ofNat 5760 ||
  (Char.ofNat 8192 ≤ c && c ≤ Char.ofNat 8202) ||
  c = Char.ofNat 8232 || c = Char.ofNat 8233 || c = Char.ofNat 8239 ||
  c = Char.ofNat 8287 || c = Char.ofNat 12288

/-- Python `s.strip()`: drop leading and trailing whitespace. -/
def pyStrip (l : List Char) : List Char :=
  ((l.dropWhile pyIsSpace).reverse.dropWhile pyIsSpace).reverse

/-- The character class `[a-zA-Z]` of the fence-opener regex. -/
def isAsciiLetter (c : Char) : Bool :=
  ('a' ≤ c && c ≤ 'z') || ('A' ≤ c && c ≤ 'Z')

/-- Drop a single leading newline if present (the `\n?` part of both regexes). -/
def dropLeadNewline (t : List Char) : List Char :=
  if t.head? = some '\n' then t.tail else t

/-- Embeds `re.sub(r'^```[a-zA-Z]*\n?', '', l)` (src line 99).  Without
`re.MULTILINE` the `^` anchor matches only at position 0, so at most one
substitution happens: if the string starts with three backticks, remove them,
then the longest run of ASCII letters (greedy `[a-zA-Z]*`), then one optional
newline. -/
def subLeadingFence (l : List Char) : List Char :=
  if fence.isPrefixOf l then dropLeadNewline ((l.drop 3).dropWhile isAsciiLetter)
  else l

/-- Embeds `re.sub(r'\n?```$', '', l)` (src line 100).  Without `re.MULTILINE`
the `$` anchor matches at the end of the string or just before a final
newline, so at most one substitution happens, anchored at the end: remove a
trailing `fence` (plus one optional newline before it), or, when the string
ends with a fence followed by a single final newline, remove that fence
(plus one optional newline before it) keeping the final newline. -/
def subTrailingFence (l : List Char) : List Char :=
  if fence.isPrefixOf l.reverse then
    (dropLeadNewline (l.reverse.drop 3)).reverse
  else if ('\n' :: fence).isPrefixOf l.reverse then
    ('\n' :: dropLeadNewline (l.reverse.drop 4)).reverse
  else l

/-- `Weather._clean_ai_response` (src lines 97-103):
`cleaned = re.sub(r'^```[a-zA-Z]*\n?', '', ai_response.strip())` then
`cleaned = re.sub(r'\n?```$', '', cleaned.strip())`. -/
def clean_ai_response (ai_response : List Char) : List Char :=
  subTrailingFence (pyStrip (subLeadingFence (pyStrip ai_response)))

/-- `Weather.process_ai_response` (src lines 105-110): returns the cleaned
response unchanged. -/
def process_ai_response (ai_response : List Char) : List Char :=
  clean_ai_response ai_response

/-- JSON values, as decoded by `resp.json()`.  Arrays are omitted: every body
the claims exercise is an object, a number or a string. -/
inductive Json where
  | null : Json
  | bool : Bool → Json
  | num : Int → Json
  | str : List Char → Json
  | obj : List (List Char × Json) → Json

/-- The dictionary key `"properties"` tested and read at src lines 88-89. -/
def propertiesKey : List Char := "properties".toList

/-- First-match key lookup in a decoded JSON object (Python dict access). -/
def lookupProp (fields : List (List Char × Json)) (k : List Char) : Option Json :=
  match fields with
  | [] => none
  | (k2, v) :: rest => if k2 = k then some v else lookupProp rest k

/-- A single-quote character (Char code 39), used inside CPython error
message texts. -/
def squote : List Char := [Char.ofNat 39]

/-- `str(e)` for the TypeError raised by `"properties" in decoded` when
`decoded` is not a container (CPython 3.11 wording). -/
def notIterableTypeError (tyname : List Char) : List Char :=
  "argument of type ".toList ++ squote ++ tyname ++ squote
    ++ " is not iterable".toList

/-- `str(e)` for the TypeError raised by `decoded["properties"]` when
`decoded` is a string (CPython 3.11 wording). -/
def strIndexTypeError : List Char :=
  "string indices must be integers, not ".toList ++ squote ++ "str".toList ++ squote

/-- Python substring membership `needle in hay` for strings. -/
def containsSub (needle : List Char) : List Char → Bool
  | [] => needle.isEmpty
  | c :: t => needle.isPrefixOf (c :: t) || containsSub needle t

/-- Outcome of executing `if "properties" in decoded: ... decoded["properties"]`
(src lines 88-89) on a decoded JSON value. -/
inductive PropsOutcome where
  | found : Json → PropsOutcome
  | absent : PropsOutcome
  | raises : List Char → PropsOutcome

/-- Python semantics of src lines 88-89 per body shape:
  * dict: key membership, then indexing — `found` or `absent`;
  * string: `in` is substring matching; when it succeeds, the indexing
    `decoded["properties"]` raises TypeError (caught at src line 91);
  * number / bool / null: `in` itself raises TypeError (caught at line 91),
    with CPython naming the type in the message (`int`, `bool`, `NoneType`;
    the model's numbers are integers). -/
def propsAccess (j : Json) : PropsOutcome :=
  match j with
  | Json.obj fields =>
      match lookupProp fields propertiesKey with
      | some v => PropsOutcome.found v
      | none => PropsOutcome.absent
  | Json.str s =>
      if containsSub propertiesKey s then PropsOutcome.raises strIndexTypeError
      else PropsOutcome.absent
  | Json.null => PropsOutcome.raises (notIterableTypeError "NoneType".toList)
  | Json.bool _ => PropsOutcome.raises (notIterableTypeError "bool".toList)
  | Json.num _ => PropsOutcome.raises (notIterableTypeError "int".toList)

/-- The `properties` sub-object of an object body — the value stored and
returned on the success path (src line 89).  The full semantics of the
membership test and indexing, including the raising cases for non-dict
bodies, is `propsAccess`; on object bodies the two agree
(`propsAccess j = found v` iff `getProperties j = some v`). -/
def getProperties (j : Json) : Option Json :=
  match j with
  | Json.obj fields => lookupProp fields propertiesKey
  | _ => none

/-- The mutable fetch-related fields of a `Weather` instance:
`_fetching`, `loading`, `fetch_error`, `data` (src lines 46-49). -/
structure FetchState where
  fetching : Bool
  loading : Bool
  fetch_error : Option (List Char)
  data : Option Json

/-- Field values set by `Weather.__init__` (src lines 46-49). -/
def initFetchState : FetchState :=
  { fetching := false, loading := true, fetch_error := none, data := none }

/-- What the HTTP transport does for one `requests.get` call:
either the call raises (network error / timeout), carrying `str(e)`,
or it returns a response with a status code and a `resp.json()` outcome
(`Except.error` = `resp.json()` raises, carrying `str(e)`). -/
inductive HttpResult where
  | exn : List Char → HttpResult
  | resp : Nat → Except (List Char) Json → HttpResult

/-- `Weather.fetch_weather` (src lines 75-95) as a function of the prior
instance state and the transport behaviour.  Returns the Python return value
(`None` ≘ `none`), the new state, and whether an HTTP request was issued.

Paths, following the source:
  * `_fetching` already true → plain `return` with no request and no mutation;
  * otherwise `_fetching` is set, the GET is issued inside `try`, and the
    `finally` block resets `_fetching` and clears `loading` on every exit;
  * status 200 and `"properties" in decoded` succeeds on a dict → store the
    sub-object in `data` and return it;
  * any exception — the GET raising, `resp.json()` raising, or the
    TypeError raised at src line 88 by the membership test / indexing on a
    non-dict body — is caught at line 91: `fetch_error` records `str(e)`,
    `None` is returned;
  * any other outcome (non-200 status, dict without the key, string body
    without the substring) → fall through and return `None` with
    `fetch_error` and `data` untouched. -/
def fetch_weather (st : FetchState) (http : HttpResult) :
    Option Json × FetchState × Bool :=
  if st.fetching then
    (none, st, false)
  else
    match http with
    | HttpResult.exn msg =>
        (none, { st with fetching := false, loading := false,
                         fetch_error := some msg }, true)
    | HttpResult.resp status body =>
        if status = 200 then
          match body with
          | Except.error msg =>
              (none, { st with fetching := false, loading := false,
                               fetch_error := some msg }, true)
          | Except.ok decoded =>
              match propsAccess decoded with
              | PropsOutcome.found props =>
                  (some props, { st with fetching := false, loading := false,
                                         data := some props }, true)
              | PropsOutcome.raises msg =>
                  (none, { st with fetching := false, loading := false,
                                   fetch_error := some msg }, true)
              | PropsOutcome.absent =>
                  (none, { st with fetching := false, loading := false }, true)
        else
          (none, { st with fetching := false, loading := false }, true)

/-- The error message recorded by `fetch_weather` for a given transport
outcome: `str(e)` when the GET raises, `str(e)` when a 200 body fails to
decode, the TypeError text when the membership test or indexing on a 200
non-dict body raises, nothing otherwise (on a non-200 status `resp.json()`
is never called, src line 86). -/
def http_error_msg (http : HttpResult) : Option (List Char) :=
  match http with
  | HttpResult.exn m => some m
  | HttpResult.resp status body =>
      if status = 200 then
        match body with
        | Except.error m => some m
        | Except.ok decoded =>
            match propsAccess decoded with
            | PropsOutcome.raises m => some m
            | _ => none
      else none

/-- The `properties` sub-object delivered by a successful fetch, if any:
requires status 200, a decodable object body, and the `properties` key. -/
def http_success_props (http : HttpResult) : Option Json :=
  match http with
  | HttpResult.resp status (Except.ok decoded) =>
      if status = 200 then
        match propsAccess decoded with
        | PropsOutcome.found props => some props
        | _ => none
      else none
  | _ => none

/-- Log verbosity selected by `Weather._configure_logging` (src lines 62-73). -/
inductive LogLevel where
  | debug : LogLevel
  | info : LogLevel
deriving DecidableEq

/-- ASCII `str.lower` on one character. -/
def pyLowerChar (c : Char) : Char :=
  if 'A' ≤ c && c ≤ 'Z' then Char.ofNat (c.toNat + 32) else c

/-- Python `s.lower()` (ASCII part). -/
def pyLower (l : List Char) : List Char := l.map pyLowerChar

/-- `Weather._configure_logging` (src lines 62-73): DEBUG when the mode
string is `"debug"` case-insensitively, INFO otherwise. -/
def configure_logging (log_mode : List Char) : LogLevel :=
  if pyLower log_mode = "debug".toList then LogLevel.debug else LogLevel.info

/-- The log level in effect during a run.  `Weather.__init__` configures
logging from the preferences value `"Log Mode"` (src lines 32-35), before
`main` runs; `main` reads only `sys.argv[0]`, `sys.argv[1]`, `sys.argv[2]`
(src lines 121-123) and never reconfigures logging, so the command line —
in particular any fourth element `sys.argv[3]` — has no effect on the level,
even though the usage text printed at src line 117 advertises an optional
`<LOG_MODE>` argument. -/
def run_log_level (prefs_log_mode : List Char) (_argv : List (List Char)) :
    LogLevel :=
  configure_logging prefs_log_mode

/-- The usage line printed at src line 117 (apostrophes spelled via
`Char.ofNat 39`). -/
def usage_line : List Char :=
  "Usage: python news.py <MESSAGE_TO_AI> <REGION_CODE>, <LOG_MODE> is Optional ".toList
    ++ [Char.ofNat 39] ++ "Debug".toList ++ [Char.ofNat 39]
    ++ " or ".toList ++ [Char.ofNat 39] ++ "Info".toList ++ [Char.ofNat 39]
    ++ " (default)".toList

/-- The string returned by `main` when arguments are missing (src line 118). -/
def usage_error_msg : List Char :=
  "<MESSAGE_TO_AI> and <REGION_CODE> parameters are required, Weather exiting".toList

/-- The fallback returned when cleaning yields a falsy result (src line 175). -/
def ai_error_msg : List Char :=
  "AI response error, could not clean".toList

namespace Weather

/-- `Weather.main` (src lines 114-179) as a function of `sys.argv`, the fetch
state, the transport behaviour, and the AI backend (opaque collaborator: a
function from the user message and the fetched weather value to the raw
reply of `payload.send_message`).  Returns the lines printed inside `main`,
the return value `response_val`, the final fetch state, and whether an HTTP
request was issued.

With fewer than 3 argv entries, `main` prints the usage line and returns the
fixed error string before touching the network (src lines 116-119; the
`sys.exit(1)` on line 119 is dead code after `return`).  Otherwise it fetches
the weather, sends `user_msg = sys.argv[1]` plus the weather addendum to the
AI, cleans the reply, and returns the cleaned text if truthy, else the fixed
fallback (src lines 170-179; `ret or ""` equals `ret` whenever `ret` is
truthy). -/
def main (argv : List (List Char)) (st : FetchState) (http : HttpResult)
    (send_message : List Char → Option Json → List Char) :
    List (List Char) × List Char × FetchState × Bool :=
  if argv.length < 3 then
    ([usage_line], usage_error_msg, st, false)
  else
    ([],
     (if process_ai_response (send_message (argv.getD 1 []) (fetch_weather st http).1) = []
      then ai_error_msg
      else process_ai_response (send_message (argv.getD 1 []) (fetch_weather st http).1)),
     (fetch_weather st http).2.1,
     (fetch_weather st http).2.2)

end Weather

/-- Test stub for the AI backend used in the end-to-end claim: echoes back
`HELLO` wrapped in a markdown fence, regardless of its inputs. -/
def hello_stub : List Char → Option Json → List Char :=
  fun _ _ => "```\nHELLO\n```".toList

/-- On object bodies the simple sub-object accessor agrees with the full
membership-test semantics. -/
theorem propsAccess_found_of_getProperties (decoded props : Json)
    (hp : getProperties decoded = some props) :
    propsAccess decoded = PropsOutcome.found props := by
  cases decoded with
  | obj fields =>
      have h2 : lookupProp fields propertiesKey = some props := hp
      simp [propsAccess, h2]
  | null => simp [getProperties] at hp
  | bool b => simp [getProperties] at hp
  | num n => simp [getProperties] at hp
  | str s => simp [getProperties] at hp

/-- C3: after every call to `fetch_weather` that proceeds past the
reentrancy check (guard initially clear), the `_fetching` flag is false:
the `finally` block at src lines 93-94 runs on the success, non-200,
missing-key and caught-exception paths alike. -/
theorem fetch_weather_clears_guard (st : FetchState) (http : HttpResult)
    (hg : st.fetching = false) :
    (fetch_weather st http).2.1.fetching = false := by
  cases http with
  | exn msg => simp [fetch_weather, hg]
  | resp status body =>
      cases body with
      | error m =>
          by_cases hs : status = 200 <;> simp [fetch_weather, hg, hs]
      | ok d =>
          by_cases hs : status = 200 <;>
            cases hp : propsAccess d <;>
              simp [fetch_weather, hg, hs, hp]

/-- Witness for `fetch_weather_clears_guard` at a concrete input. -/
theorem fetch_weather_clears_guard_witness :
    initFetchState.fetching = false ∧
    (fetch_weather initFetchState
        (HttpResult.resp 503 (Except.ok (Json.obj [])))).2.1.fetching = false :=
  ⟨rfl, fetch_weather_clears_guard initFetchState
      (HttpResult.resp 503 (Except.ok (Json.obj []))) rfl⟩

/-- C4: a call made while `_fetching` is already true returns `None`
immediately, issues no HTTP request, and leaves the state untouched
(src lines 76-77). -/
theorem fetch_weather_reentrant_noop (st : FetchState) (http : HttpResult)
    (hg : st.fetching = true) :
    fetch_weather st http = (none, st, false) := by
  simp [fetch_weather, hg]

/-- Witness for `fetch_weather_reentrant_noop` at a concrete input. -/
theorem fetch_weather_reentrant_noop_witness :
    ({ initFetchState with fetching := true } : FetchState).fetching = true ∧
    fetch_weather { initFetchState with fetching := true }
        (HttpResult.resp 200 (Except.ok (Json.obj [(propertiesKey, Json.num 1)])))
      = (none, { initFetchState with fetching := true }, false) :=
  ⟨rfl, fetch_weather_reentrant_noop _ _ rfl⟩

/-- C8: with the guard clear, a 200 response whose decoded body contains a
`properties` key makes `fetch_weather` store that sub-object in `data` and
return it, with the guard cleared and `loading` reset afterwards
(src lines 86-95). -/
theorem fetch_weather_success (st : FetchState) (decoded props : Json)
    (hg : st.fetching = false) (hp : getProperties decoded = some props) :
    fetch_weather st (HttpResult.resp 200 (Except.ok decoded)) =
      (some props,
       { st with fetching := false, loading := false, data := some props },
       true) := by
  simp [fetch_weather, hg, propsAccess_found_of_getProperties decoded props hp]

/-- Witness for `fetch_weather_success`: HTTP 200 with body
`obj [properties ↦ obj [temp ↦ -5]]` yields `obj [temp ↦ -5]`. -/
theorem fetch_weather_success_witness :
    initFetchState.fetching = false ∧
    getProperties (Json.obj [(propertiesKey, Json.obj [("temp".toList, Json.num (-5))])])
      = some (Json.obj [("temp".toList, Json.num (-5))]) ∧
    fetch_weather initFetchState
        (HttpResult.resp 200 (Except.ok
          (Json.obj [(propertiesKey, Json.obj [("temp".toList, Json.num (-5))])])))
      = (some (Json.obj [("temp".toList, Json.num (-5))]),
         { initFetchState with fetching := false, loading := false,
                               data := some (Json.obj [("temp".toList, Json.num (-5))]) },
         true) :=
  ⟨rfl, rfl, fetch_weather_success initFetchState _ _ rfl rfl⟩

/-- C1 counterexample: from a fresh state, an HTTP 500 response makes
`fetch_weather` return `None` — but no error message is recorded
(`fetch_error` stays `None`), contradicting the claim that every non-200
status records the failure's message as a non-empty string.  In the source,
`fetch_error` is only assigned in the `except` branch (src line 92), which a
non-200 status never reaches. -/
theorem fetch_weather_c1_counterexample :
    (fetch_weather initFetchState
        (HttpResult.resp 500 (Except.ok (Json.obj [])))).2.1.fetch_error = none ∧
    ¬ ∃ msg : List Char,
        (fetch_weather initFetchState
            (HttpResult.resp 500 (Except.ok (Json.obj [])))).2.1.fetch_error
          = some msg ∧ msg ≠ [] := by
  constructor
  · rfl
  · rintro ⟨msg, hmsg, -⟩
    have h0 : (fetch_weather initFetchState
        (HttpResult.resp 500 (Except.ok (Json.obj [])))).2.1.fetch_error = none := rfl
    rw [h0] at hmsg
    exact Option.noConfusion hmsg

/-- C1 (amended): with the guard clear, on every unsuccessful outcome —
transport exception, undecodable 200 body, non-200 status, 200 object body
without a `properties` key, 200 string body, or 200 non-container body —
the call returns `None`, releases the guard, clears `loading`, leaves the
stored snapshot `data` unchanged, and no exception propagates (the
embedding is a total function).  The last-error field records `str(e)`
exactly when an exception was caught: a GET failure, a JSON decode failure,
or the TypeError raised by the membership test / indexing on a 200 body
that is not a dict; on a non-200 status, an object body missing the key, or
a string body without the substring, it is left unchanged. -/
theorem fetch_weather_failure (st : FetchState) (http : HttpResult)
    (hg : st.fetching = false) (hf : http_success_props http = none) :
    (fetch_weather st http).1 = none ∧
    (fetch_weather st http).2.1.fetching = false ∧
    (fetch_weather st http).2.1.loading = false ∧
    (fetch_weather st http).2.1.data = st.data ∧
    (fetch_weather st http).2.1.fetch_error
      = (http_error_msg http).elim st.fetch_error some ∧
    (fetch_weather st http).2.2 = true := by
  cases http with
  | exn msg => simp [fetch_weather, http_error_msg, hg]
  | resp status body =>
      by_cases hs : status = 200
      · cases body with
        | error m => simp [fetch_weather, http_error_msg, hg, hs]
        | ok d =>
            cases hpa : propsAccess d with
            | found p => simp [http_success_props, hs, hpa] at hf
            | absent => simp [fetch_weather, http_error_msg, hg, hs, hpa]
            | raises m => simp [fetch_weather, http_error_msg, hg, hs, hpa]
      · cases body with
        | error m => simp [fetch_weather, http_error_msg, hg, hs]
        | ok d => simp [fetch_weather, http_error_msg, hg, hs]

/-- Witness for `fetch_weather_failure`: a timeout exception from a fresh
state records its message and returns `None`. -/
theorem fetch_weather_failure_witness :
    initFetchState.fetching = false ∧
    http_success_props (HttpResult.exn "timed out".toList) = none ∧
    ((fetch_weather initFetchState (HttpResult.exn "timed out".toList)).1 = none ∧
     (fetch_weather initFetchState (HttpResult.exn "timed out".toList)).2.1.fetching = false ∧
     (fetch_weather initFetchState (HttpResult.exn "timed out".toList)).2.1.loading = false ∧
     (fetch_weather initFetchState (HttpResult.exn "timed out".toList)).2.1.data
        = initFetchState.data ∧
     (fetch_weather initFetchState (HttpResult.exn "timed out".toList)).2.1.fetch_error
        = (http_error_msg (HttpResult.exn "timed out".toList)).elim
            initFetchState.fetch_error some ∧
     (fetch_weather initFetchState (HttpResult.exn "timed out".toList)).2.2 = true) :=
  ⟨rfl, rfl, fetch_weather_failure initFetchState (HttpResult.exn "timed out".toList) rfl rfl⟩

/-- C6: with fewer than three argv entries (script name plus fewer than two
user arguments), `main` prints the usage line, returns the fixed error
string, leaves the state untouched, and issues no network request
(src lines 116-119). -/
theorem main_usage_error (argv : List (List Char)) (st : FetchState)
    (http : HttpResult) (send_message : List Char → Option Json → List Char)
    (h : argv.length < 3) :
    Weather.main argv st http send_message
      = ([usage_line], usage_error_msg, st, false) := by
  simp [Weather.main, h]

/-- Witness for `main_usage_error`: a run with only the script name. -/
theorem main_usage_error_witness :
    ([("weather.py".toList)] : List (List Char)).length < 3 ∧
    Weather.main [("weather.py".toList)] initFetchState
        (HttpResult.resp 200 (Except.ok (Json.obj []))) (fun _ _ => [])
      = ([usage_line], usage_error_msg, initFetchState, false) :=
  ⟨by decide, main_usage_error _ initFetchState _ _ (by decide)⟩

/-- C7 (code-bug evidence): the log level of a run is decided by the
preferences `"Log Mode"` value alone; `main` never reads a log-mode
override from `sys.argv`, so passing `"Debug"` as third user argument with
an `"Info"` preference still yields INFO, and any two argv vectors give the
same level. -/
theorem log_mode_argument_ignored :
    run_log_level "Info".toList
        ["weather.py".toList, "hi".toList, "on-117".toList, "Debug".toList]
      = LogLevel.info ∧
    (∀ prefs argv argv2, run_log_level prefs argv = run_log_level prefs argv2) :=
  ⟨rfl, fun _ _ _ => rfl⟩

/-- A nonempty `dropWhile` result starts with a character failing the
predicate. -/
theorem head_dropWhile_false (p : Char → Bool) :
    ∀ (x : List Char) (c : Char), (x.dropWhile p).head? = some c → p c = false := by
  intro x
  induction x with
  | nil => intro c hc; simp at hc
  | cons a t ih =>
      intro c hc
      rw [List.dropWhile_cons] at hc
      by_cases hpa : p a = true
      · rw [if_pos hpa] at hc
        exact ih c hc
      · rw [if_neg hpa] at hc
        have hac : a = c := by simpa using hc
        simp only [Bool.not_eq_true] at hpa
        rwa [← hac]

/-- A list whose head fails the predicate is unchanged by `dropWhile`. -/
theorem dropWhile_head_false (p : Char → Bool) (x : List Char) (c : Char)
    (hc : x.head? = some c) (hp : p c = false) : x.dropWhile p = x := by
  cases x with
  | nil => rfl
  | cons a t =>
      have hac : a = c := by simpa using hc
      rw [List.dropWhile_cons, hac, hp]
      simp

/-- `dropWhile` is idempotent. -/
theorem dropWhile_idem (p : Char → Bool) (x : List Char) :
    (x.dropWhile p).dropWhile p = x.dropWhile p := by
  cases hx : x.dropWhile p with
  | nil => simp
  | cons a t =>
      have ha : p a = false := head_dropWhile_false p x a (by rw [hx]; rfl)
      rw [List.dropWhile_cons, ha]
      simp

/-- `pyStrip` leaves a list alone when its first and last characters are not
whitespace. -/
theorem pyStrip_of_ends (x : List Char)
    (hh : ∀ c, x.head? = some c → pyIsSpace c = false)
    (hl : ∀ c, x.getLast? = some c → pyIsSpace c = false) : pyStrip x = x := by
  have h1 : x.dropWhile pyIsSpace = x := by
    cases hx : x with
    | nil => simp
    | cons a t =>
        exact dropWhile_head_false pyIsSpace (a :: t) a rfl
          (hh a (by rw [hx]; rfl))
  have h2 : x.reverse.dropWhile pyIsSpace = x.reverse := by
    cases hx : x.reverse with
    | nil => simp [hx]
    | cons a t =>
        have ha : pyIsSpace a = false := by
          apply hl
          rw [← List.head?_reverse, hx]; rfl
        exact dropWhile_head_false pyIsSpace (a :: t) a rfl ha
  unfold pyStrip
  rw [h1, h2, List.reverse_reverse]

/-- Decomposition: `x.dropWhile p` is `pyStrip`-style right-stripped into a
prefix plus stripped tail. -/
theorem dropWhile_eq_pyStrip_append (x : List Char) :
    ∃ v : List Char, x.dropWhile pyIsSpace = pyStrip x ++ v := by
  obtain ⟨u, hu⟩ := List.dropWhile_suffix (l := (x.dropWhile pyIsSpace).reverse) pyIsSpace
  refine ⟨u.reverse, ?_⟩
  have h2 := congrArg List.reverse hu
  rw [List.reverse_append, List.reverse_reverse] at h2
  exact h2.symm

/-- `pyStrip` is idempotent. -/
theorem pyStrip_idem (x : List Char) : pyStrip (pyStrip x) = pyStrip x := by
  apply pyStrip_of_ends
  · intro c hc
    obtain ⟨v, hv⟩ := dropWhile_eq_pyStrip_append x
    cases hps : pyStrip x with
    | nil => rw [hps] at hc; simp at hc
    | cons a t =>
        have hac : a = c := by rw [hps] at hc; simpa using hc
        have hxd : x.dropWhile pyIsSpace = a :: (t ++ v) := by
          rw [hv, hps]; rfl
        have := head_dropWhile_false pyIsSpace x a (by rw [hxd]; rfl)
        rwa [← hac]
  · intro c hc
    rw [← List.head?_reverse] at hc
    rw [show (pyStrip x).reverse = (x.dropWhile pyIsSpace).reverse.dropWhile pyIsSpace from
      by unfold pyStrip; rw [List.reverse_reverse]] at hc
    exact head_dropWhile_false pyIsSpace _ c hc

/-- The stripped list is an infix of the original. -/
theorem pyStrip_isInfix (x : List Char) : pyStrip x <:+: x := by
  obtain ⟨u, hu⟩ := List.dropWhile_suffix (l := x) pyIsSpace
  obtain ⟨v, hv⟩ := dropWhile_eq_pyStrip_append x
  exact ⟨u, v, by rw [List.append_assoc, ← hv, hu]⟩

/-- Soundness of the boolean `isPrefixOf` test. -/
theorem prefixOf_sound : ∀ (a b : List Char), a.isPrefixOf b = true → a <+: b := by
  intro a
  induction a with
  | nil => intro b _; exact List.nil_prefix
  | cons x xs ih =>
      intro b h
      cases b with
      | nil => simp [List.isPrefixOf] at h
      | cons y ys =>
          have h2 : (x == y && xs.isPrefixOf ys) = true := h
          rw [Bool.and_eq_true] at h2
          have hxy : x = y := by simpa using h2.1
          obtain ⟨t, ht⟩ := ih ys h2.2
          subst hxy
          exact ⟨t, by rw [List.cons_append, ht]⟩

/-- An infix of a reversed list is, reversed, an infix of the list. -/
theorem isInfix_of_rev {x y : List Char} (h : x <:+: y.reverse) :
    x.reverse <:+: y := by
  obtain ⟨s, t, hst⟩ := h
  refine ⟨t.reverse, s.reverse, ?_⟩
  have h2 := congrArg List.reverse hst
  rw [List.reverse_reverse] at h2
  rw [← h2]
  simp [List.reverse_append, List.append_assoc]

/-- On input containing no fence at all, the cleaner only strips whitespace:
both substitutions are identities. -/
theorem clean_eq_strip_of_no_fence (x : List Char) (h : ¬ (fence <:+: x)) :
    clean_ai_response x = pyStrip x := by
  have hsx : ¬ (fence <:+: pyStrip x) := fun hf => h (hf.trans (pyStrip_isInfix x))
  have hL : subLeadingFence (pyStrip x) = pyStrip x := by
    unfold subLeadingFence
    rw [if_neg]
    intro hb
    exact hsx (prefixOf_sound _ _ hb).isInfix
  have hc1 : ¬ (fence.isPrefixOf (pyStrip x).reverse = true) := by
    intro hb
    have h3 := isInfix_of_rev (prefixOf_sound _ _ hb).isInfix
    rw [show fence.reverse = fence from rfl] at h3
    exact hsx h3
  have hc2 : ¬ (('\n' :: fence).isPrefixOf (pyStrip x).reverse = true) := by
    intro hb
    obtain ⟨t, ht⟩ := prefixOf_sound _ _ hb
    have h3 : fence <:+: (pyStrip x).reverse := ⟨['\n'], t, ht⟩
    have h4 := isInfix_of_rev h3
    rw [show fence.reverse = fence from rfl] at h4
    exact hsx h4
  have hT : subTrailingFence (pyStrip x) = pyStrip x := by
    unfold subTrailingFence
    rw [if_neg hc1, if_neg hc2]
  unfold clean_ai_response
  rw [hL, pyStrip_idem, hT]

/-- Removing the trailing fence: the second substitution deletes exactly one
final newline-plus-fence. -/
theorem subTrailing_append (A : List Char) :
    subTrailingFence (A ++ ('\n' :: fence)) = A := by
  have hrev : (A ++ ('\n' :: fence)).reverse = btick :: btick :: btick :: '\n' :: A.reverse := by
    simp [fence, List.reverse_append]
  unfold subTrailingFence
  rw [hrev, if_pos (show fence.isPrefixOf
      (btick :: btick :: btick :: '\n' :: A.reverse) = true by
    simp [fence, List.isPrefixOf])]
  simp [dropLeadNewline]

/-- Anything followed by a newline and a fence ends in a backtick. -/
theorem getLast_append_nl_fence (A : List Char) :
    (A ++ ('\n' :: fence)).getLast? = some btick := by
  rw [← List.head?_reverse]
  simp [fence, List.reverse_append]

/-- C2: `_clean_ai_response` trims surrounding whitespace and removes one
leading fence opener (three backticks, an optional ASCII-letter language
tag, an optional newline) and one trailing closer (optional newline plus
three backticks) — only the first of each, as the anchors `^` and `$` match
once.  Conjuncts: the two examples from the spec, and the general shape: for
every letters-only tag and every body whose first character is not
whitespace, cleaning the fenced body returns exactly the body — inner fence
markers inside `body` survive untouched. -/
theorem clean_ai_response_c2 (tag body : List Char)
    (htag : tag.all isAsciiLetter = true)
    (hb : ∀ c, body.head? = some c → pyIsSpace c = false)
    (hne : body ≠ []) :
    clean_ai_response ("```json\n\x7b\"a\":1\x7d\n```".toList) = "\x7b\"a\":1\x7d".toList ∧
    clean_ai_response ("plain text".toList) = "plain text".toList ∧
    clean_ai_response (fence ++ (tag ++ (('\n' :: body) ++ ('\n' :: fence)))) = body := by
  refine ⟨by decide, by decide, ?_⟩
  have hshape : fence ++ (tag ++ (('\n' :: body) ++ ('\n' :: fence)))
      = ((fence ++ tag) ++ ('\n' :: body)) ++ ('\n' :: fence) := by
    simp [List.append_assoc]
  have hstr1 : pyStrip (fence ++ (tag ++ (('\n' :: body) ++ ('\n' :: fence))))
      = fence ++ (tag ++ (('\n' :: body) ++ ('\n' :: fence))) := by
    apply pyStrip_of_ends
    · intro c hc
      have hcb : c = btick := by
        have : (fence ++ (tag ++ (('\n' :: body) ++ ('\n' :: fence)))).head? = some btick := rfl
        rw [this] at hc
        exact (Option.some.inj hc).symm
      rw [hcb]; decide
    · intro c hc
      rw [hshape, getLast_append_nl_fence] at hc
      have hcb : c = btick := (Option.some.inj hc).symm
      rw [hcb]; decide
  have hsubL : subLeadingFence (fence ++ (tag ++ (('\n' :: body) ++ ('\n' :: fence))))
      = body ++ ('\n' :: fence) := by
    unfold subLeadingFence
    rw [if_pos (show fence.isPrefixOf
        (fence ++ (tag ++ (('\n' :: body) ++ ('\n' :: fence)))) = true by
      simp [fence, List.isPrefixOf])]
    have hdrop : (fence ++ (tag ++ (('\n' :: body) ++ ('\n' :: fence)))).drop 3
        = tag ++ (('\n' :: body) ++ ('\n' :: fence)) := rfl
    rw [hdrop, List.dropWhile_append_of_pos (by simpa using htag)]
    have : (('\n' :: body) ++ ('\n' :: fence)).dropWhile isAsciiLetter
        = ('\n' :: body) ++ ('\n' :: fence) :=
      dropWhile_head_false isAsciiLetter _ '\n' rfl rfl
    rw [this]
    simp [dropLeadNewline]
  have hstr2 : pyStrip (body ++ ('\n' :: fence)) = body ++ ('\n' :: fence) := by
    apply pyStrip_of_ends
    · intro c hc
      cases body with
      | nil => exact absurd rfl hne
      | cons a t =>
          have hac : a = c := by simpa using hc
          rw [← hac]
          exact hb a rfl
    · intro c hc
      rw [getLast_append_nl_fence] at hc
      rw [(Option.some.inj hc).symm]; decide
  unfold clean_ai_response
  rw [hstr1, hsubL, hstr2, subTrailing_append]

/-- Witness for `clean_ai_response_c2` at tag `json`, body `X`. -/
theorem clean_ai_response_c2_witness :
    clean_ai_response (fence ++ (("json".toList) ++ (('\n' :: ("X".toList)) ++ ('\n' :: fence))))
      = "X".toList :=
  (clean_ai_response_c2 ("json".toList) ("X".toList) (by decide)
      (by intro c hc; simp at hc; rw [← hc]; decide) (by decide)).2.2

/-- C9: the response cleaner is a pure total function (by construction of the
embedding it always returns a list of characters and cannot fail), and on
inputs free of fence markers — no occurrence of three backticks — it is
idempotent: cleaning reduces to whitespace stripping, which is idempotent. -/
theorem clean_ai_response_idem (x : List Char) (h : ¬ (fence <:+: x)) :
    clean_ai_response (clean_ai_response x) = clean_ai_response x := by
  rw [clean_eq_strip_of_no_fence x h]
  have h2 : ¬ (fence <:+: pyStrip x) := fun hf => h (hf.trans (pyStrip_isInfix x))
  rw [clean_eq_strip_of_no_fence _ h2, pyStrip_idem]

/-- Witness for `clean_ai_response_idem` on a fence-free input. -/
theorem clean_ai_response_idem_witness :
    clean_ai_response (clean_ai_response ("plain text".toList))
      = clean_ai_response ("plain text".toList) :=
  clean_ai_response_idem ("plain text".toList) (by decide)

/-- C10: when the opener tag contains non-letter characters, only the
backticks plus the longest run of ASCII letters are removed (the regex
`` ^```[a-zA-Z]*\n? `` cannot consume the non-letter, and the optional
newline then fails too), so the remaining tag characters stay at the front
of the result.  Conjuncts: the concrete `c++` example, and the general
shape. -/
theorem clean_nonletter_tag (letters rest body : List Char) (c : Char)
    (hlet : letters.all isAsciiLetter = true)
    (hr : rest.head? = some c)
    (hc1 : isAsciiLetter c = false) (hc2 : c ≠ '\n') (hc3 : pyIsSpace c = false) :
    clean_ai_response ("```c++\nint x;\n```".toList) = "++\nint x;".toList ∧
    clean_ai_response (fence ++ (letters ++ (rest ++ (('\n' :: body) ++ ('\n' :: fence)))))
      = rest ++ ('\n' :: body) := by
  refine ⟨by decide, ?_⟩
  have hshape : fence ++ (letters ++ (rest ++ (('\n' :: body) ++ ('\n' :: fence))))
      = (((fence ++ letters) ++ rest) ++ ('\n' :: body)) ++ ('\n' :: fence) := by
    simp [List.append_assoc]
  have hstr1 : pyStrip (fence ++ (letters ++ (rest ++ (('\n' :: body) ++ ('\n' :: fence)))))
      = fence ++ (letters ++ (rest ++ (('\n' :: body) ++ ('\n' :: fence)))) := by
    apply pyStrip_of_ends
    · intro d hd
      have : (fence ++ (letters ++ (rest ++ (('\n' :: body) ++ ('\n' :: fence))))).head?
          = some btick := rfl
      rw [this] at hd
      rw [(Option.some.inj hd).symm]; decide
    · intro d hd
      rw [hshape, getLast_append_nl_fence] at hd
      rw [(Option.some.inj hd).symm]; decide
  have hsubL : subLeadingFence (fence ++ (letters ++ (rest ++ (('\n' :: body) ++ ('\n' :: fence)))))
      = rest ++ (('\n' :: body) ++ ('\n' :: fence)) := by
    unfold subLeadingFence
    rw [if_pos (show fence.isPrefixOf
        (fence ++ (letters ++ (rest ++ (('\n' :: body) ++ ('\n' :: fence))))) = true by
      simp [fence, List.isPrefixOf])]
    have hdrop : (fence ++ (letters ++ (rest ++ (('\n' :: body) ++ ('\n' :: fence))))).drop 3
        = letters ++ (rest ++ (('\n' :: body) ++ ('\n' :: fence))) := rfl
    rw [hdrop, List.dropWhile_append_of_pos (by simpa using hlet)]
    rw [dropWhile_head_false isAsciiLetter _ c (by
      cases rest with
      | nil => simp at hr
      | cons a t => simpa using hr) hc1]
    have hnc : ¬ ((rest ++ (('\n' :: body) ++ ('\n' :: fence))).head? = some '\n') := by
      intro hhead
      cases rest with
      | nil => simp at hr
      | cons a t =>
          have hac : a = c := by simpa using hr
          have han : a = '\n' := by simpa using hhead
          exact hc2 (by rw [← hac]; exact han)
    unfold dropLeadNewline
    rw [if_neg hnc]
  have hstr2 : pyStrip (rest ++ (('\n' :: body) ++ ('\n' :: fence)))
      = rest ++ (('\n' :: body) ++ ('\n' :: fence)) := by
    apply pyStrip_of_ends
    · intro d hd
      cases rest with
      | nil => simp at hr
      | cons a t =>
          have hac : a = c := by simpa using hr
          have had : a = d := by simpa using hd
          rwa [← had, hac]
    · intro d hd
      have hshape2 : rest ++ (('\n' :: body) ++ ('\n' :: fence))
          = (rest ++ ('\n' :: body)) ++ ('\n' :: fence) := by
        simp [List.append_assoc]
      rw [hshape2, getLast_append_nl_fence] at hd
      rw [(Option.some.inj hd).symm]; decide
  have hshape3 : rest ++ (('\n' :: body) ++ ('\n' :: fence))
      = (rest ++ ('\n' :: body)) ++ ('\n' :: fence) := by
    simp [List.append_assoc]
  unfold clean_ai_response
  rw [hstr1, hsubL, hstr2, hshape3, subTrailing_append]

/-- Witness for `clean_nonletter_tag` at letters `c`, rest `++`, body `y`. -/
theorem clean_nonletter_tag_witness :
    clean_ai_response (fence ++ (("c".toList) ++ (("++".toList)
        ++ (('\n' :: ("y".toList)) ++ ('\n' :: fence)))))
      = "++".toList ++ ('\n' :: ("y".toList)) :=
  (clean_nonletter_tag ("c".toList) ("++".toList) ("y".toList) '+'
      (by decide) rfl (by decide) (by decide) (by decide)).2

/-- C5: past argument validation, `main` returns the cleaned AI reply when
cleaning yields a truthy (nonempty) string, and the fixed fallback string
when cleaning yields a falsy result (src lines 170-179); end to end, with a
stubbed transport and an AI stub replying `HELLO` inside a fence, the
returned output is exactly `HELLO`. -/
theorem main_returns_cleaned_or_fallback (argv : List (List Char))
    (st : FetchState) (http : HttpResult)
    (send_message : List Char → Option Json → List Char)
    (hlen : 3 ≤ argv.length) :
    ((clean_ai_response (send_message (argv.getD 1 []) (fetch_weather st http).1) ≠ [] →
        (Weather.main argv st http send_message).2.1
          = clean_ai_response (send_message (argv.getD 1 []) (fetch_weather st http).1)) ∧
     (clean_ai_response (send_message (argv.getD 1 []) (fetch_weather st http).1) = [] →
        (Weather.main argv st http send_message).2.1 = ai_error_msg)) ∧
    (Weather.main ["weather.py".toList, "ask".toList, "on-117".toList]
        initFetchState (HttpResult.resp 200 (Except.ok (Json.obj []))) hello_stub).2.1
      = "HELLO".toList := by
  have hnot : ¬ (argv.length < 3) := Nat.not_lt.mpr hlen
  have hmain : (Weather.main argv st http send_message).2.1
      = (if clean_ai_response (send_message (argv.getD 1 []) (fetch_weather st http).1) = []
         then ai_error_msg
         else clean_ai_response (send_message (argv.getD 1 []) (fetch_weather st http).1)) := by
    unfold Weather.main
    rw [if_neg hnot]
    rfl
  refine ⟨⟨?_, ?_⟩, by decide⟩
  · intro hne
    rw [hmain, if_neg hne]
  · intro he
    rw [hmain, if_pos he]

/-- Witness for `main_returns_cleaned_or_fallback`: the end-to-end `HELLO`
run, obtained by applying the theorem at concrete inputs and discharging
its hypotheses there. -/
theorem main_returns_cleaned_or_fallback_witness :
    (Weather.main ["weather.py".toList, "ask".toList, "on-117".toList]
        initFetchState (HttpResult.resp 200 (Except.ok (Json.obj []))) hello_stub).2.1
      = "HELLO".toList :=
  ((main_returns_cleaned_or_fallback
      ["weather.py".toList, "ask".toList, "on-117".toList]
      initFetchState (HttpResult.resp 200 (Except.ok (Json.obj []))) hello_stub
      (by decide)).1).1 (by decide)
